import Mathlib

/-!
Shallow embedding of `src/python/ip_check.py` (the `securekit` repository).

The program performs one HTTP GET to an IP-geolocation service, projects the
parsed JSON response to a fixed whitelist of fields, derives a UTC offset in
minutes from a timezone name, compares the resolved country code with an
expected one, and prints the result as one JSON line.

Modelling choices:
* JSON values are the inductive `JVal`; Python mappings are association
  lists.  `dict.get` on a non-mapping raises `AttributeError`, which we
  model in `Except PyErr`.
* Python truthiness (`or {}`, `if not time_zone`) is `JVal.truthy`.
* The HTTP layer is an oracle `http : String → HttpResponse` from the
  request URL to a response whose body is the already-parsed JSON value;
  `resp.raise_for_status()` raises exactly on status codes 400–599.
* Timezone resolution (`ZoneInfo(name)` followed by `datetime.now(...)
  .utcoffset()`) depends on the wall clock and the installed timezone
  database, so it is an oracle `TzEnv.resolve : String → Option Int`
  giving the zone's current total UTC offset in seconds; `none` models
  both an unresolvable name (the exception the source catches) and a
  `None` offset.  `ZoneInfo is None` (pre-3.9 runtime) is the flag
  `TzEnv.zoneInfoAvailable`.
* `print(json.dumps(x))` on standard output is modelled by appending the
  value `x` to the list of JSON documents printed; standard error is a
  list of strings.  An exception escaping `main` terminates the Python
  interpreter with exit code 1, captured by `MainOutcome.raised`.
-/

namespace IpCheck

/-- JSON-like values, the result of `resp.json()`. -/
inductive JVal where
  | null : JVal
  | bool : Bool → JVal
  | str : String → JVal
  | num : Int → JVal
  | arr : List JVal → JVal
  | obj : List (String × JVal) → JVal

/-- Python truthiness of a JSON value (`bool(v)`). -/
def JVal.truthy : JVal → Bool
  | .null => false
  | .bool b => b
  | .str s => s != ""
  | .num n => n != 0
  | .arr xs => !xs.isEmpty
  | .obj fs => !fs.isEmpty

/-- First binding of `key` in an association list, like a Python dict lookup. -/
def jlookup : List (String × JVal) → String → Option JVal
  | [], _ => none
  | (k, v) :: rest, key => if k = key then some v else jlookup rest key

/-- The keys of a JSON object (empty for non-objects). -/
def JVal.keys : JVal → List String
  | .obj fs => fs.map Prod.fst
  | _ => []

/-- Whether a JSON object carries `key`. -/
def JVal.hasKey (v : JVal) (key : String) : Bool :=
  v.keys.contains key

/-- Total field access used in specifications: the value at `key`, or
`null` when the key is absent or the value is not an object. -/
def JVal.item (v : JVal) (key : String) : JVal :=
  match v with
  | .obj fs => (jlookup fs key).getD .null
  | _ => .null

/-- Python exceptions that the embedded code can raise. -/
inductive PyErr where
  | attributeError : PyErr
  | typeError : PyErr
  | keyError : String → PyErr
  | httpError : Nat → JVal → PyErr

/-- Python `v.get(key, dflt)`: on a dict, the stored value or the default;
on any non-dict receiver an `AttributeError`. -/
def pyGetD (v : JVal) (key : String) (dflt : JVal) : Except PyErr JVal :=
  match v with
  | .obj fs => .ok ((jlookup fs key).getD dflt)
  | _ => .error .attributeError

/-- Python `v.get(key)`: default `None`. -/
def pyGet (v : JVal) (key : String) : Except PyErr JVal :=
  pyGetD v key .null

/-- Python `v[key]` on a dict: `KeyError` when absent, `TypeError` when the
receiver is not a dict. -/
def pyIndex (v : JVal) (key : String) : Except PyErr JVal :=
  match v with
  | .obj fs =>
    match jlookup fs key with
    | some x => .ok x
    | none => .error (.keyError key)
  | _ => .error .typeError

/-- Python `str.upper()` on the characters of a string (uppercasing each
character). -/
def pyStrUpper (s : String) : String :=
  ⟨s.data.map Char.toUpper⟩

/-- Python `v.upper()`: succeeds exactly on strings. -/
def pyUpper : JVal → Except PyErr String
  | .str s => .ok (pyStrUpper s)
  | _ => .error .attributeError

/-- Python `v or {}` as used on the response groups. -/
def orEmptyObj (v : JVal) : JVal :=
  if v.truthy then v else .obj []

/-- The dataclass `IpInfo` (the spec's `RawLookupResult`).  The Python type
annotations promise dicts for the three groups, but nothing enforces them,
so the fields are arbitrary JSON values. -/
structure IpInfo where
  ip : JVal
  security : JVal
  location : JVal
  network : JVal

/-- An HTTP response: status code and already-parsed JSON body. -/
structure HttpResponse where
  status : Nat
  body : JVal

/-- The runtime facts the timezone computation consults: whether `zoneinfo`
imported, and the current total UTC offset in seconds of each resolvable
zone name (`none` = `ZoneInfo(name)` raises, the database is missing, or
`utcoffset()` is `None`). -/
structure TzEnv where
  zoneInfoAvailable : Bool
  resolve : String → Option Int

def API_BASE_URL : String := "https://vpnapi.io/api"

/-- The f-string `f"\x7bAPI_BASE_URL\x7d/\x7bip\x7d?key=\x7bAPI_KEY\x7d"`. -/
def build_url (apiKey ip : String) : String :=
  API_BASE_URL ++ "/" ++ ip ++ "?key=" ++ apiKey

/-- Python `resp.raise_for_status()`: raises `requests.HTTPError` exactly
for client- and server-error statuses (400–599). -/
def raise_for_status (resp : HttpResponse) : Except PyErr Unit :=
  if 400 ≤ resp.status ∧ resp.status < 600 then
    .error (.httpError resp.status resp.body)
  else
    .ok ()

/-- The `IpInfo(...)` construction in `fetch_ip_info`, lines 36–41:
`data.get("ip")` and `data.get(group, \x7b\x7d) or \x7b\x7d` for the three
groups. -/
def parse_ip_info (data : JVal) : Except PyErr IpInfo := do
  let ip ← pyGet data "ip"
  let sec ← pyGetD data "security" (.obj [])
  let loc ← pyGetD data "location" (.obj [])
  let net ← pyGetD data "network" (.obj [])
  pure ⟨ip, orEmptyObj sec, orEmptyObj loc, orEmptyObj net⟩

/-- `fetch_ip_info(ip)`: build the URL, GET it, raise for status, parse. -/
def fetch_ip_info (apiKey : String) (http : String → HttpResponse)
    (ip : String) : Except PyErr IpInfo := do
  let resp := http (build_url apiKey ip)
  raise_for_status resp
  parse_ip_info resp.body

/-- `compute_utc_offset_minutes(time_zone)`.  The argument is whatever
`location.get("time_zone")` produced, hence an arbitrary JSON value:
`if not time_zone or ZoneInfo is None: return None`; `ZoneInfo` applied to
a non-string raises `TypeError`, any exception is caught to `None`;
otherwise `int(offset.total_seconds() // 60)` is floor division of the
offset seconds by 60. -/
def compute_utc_offset_minutes (env : TzEnv) (time_zone : JVal) : Option Int :=
  if !time_zone.truthy || !env.zoneInfoAvailable then
    none
  else
    match time_zone with
    | .str s =>
      match env.resolve s with
      | some secs => some (Int.fdiv secs 60)
      | none => none
    | _ => none

def optIntToJVal : Option Int → JVal
  | none => .null
  | some n => .num n

def optStrToJVal : Option String → JVal
  | none => .null
  | some s => .str s

/-- `slim_ip_info(ip_info)`, lines 63–88: normalize the two used groups
with `or \x7b\x7d`, read `time_zone`, derive the offset, and build the dict
literal in source order. -/
def slim_ip_info (env : TzEnv) (ip_info : IpInfo) : Except PyErr JVal := do
  let security := orEmptyObj ip_info.security
  let location := orEmptyObj ip_info.location
  let tz_name ← pyGet location "time_zone"
  let utc_offset_minutes := compute_utc_offset_minutes env tz_name
  let vpn ← pyGet security "vpn"
  let proxy ← pyGet security "proxy"
  let tor ← pyGet security "tor"
  let relay ← pyGet security "relay"
  let city ← pyGet location "city"
  let region ← pyGet location "region"
  let country ← pyGet location "country"
  let country_code ← pyGet location "country_code"
  pure (.obj [
    ("ip", ip_info.ip),
    ("security", .obj [
      ("vpn", vpn), ("proxy", proxy), ("tor", tor), ("relay", relay)]),
    ("location", .obj [
      ("city", city), ("region", region), ("country", country),
      ("country_code", country_code), ("time_zone", tz_name),
      ("utc_offset_minutes", optIntToJVal utc_offset_minutes)])])

/-- The tri-state comparison of `check_ip_country`, lines 96–99:
`same_country = None`, overwritten by
`ip_country.upper() == expected_country_code.upper()` when both operands
are not `None`.  `upper` on a non-string raises `AttributeError`. -/
def same_country_val (ip_country : JVal) (expected : Option String) :
    Except PyErr JVal :=
  match ip_country, expected with
  | .null, _ => .ok .null
  | _, none => .ok .null
  | v, some e => do
    let u ← pyUpper v
    pure (.bool (u == pyStrUpper e))

/-- `check_ip_country(ip, expected_country_code)`, lines 91–106. -/
def check_ip_country (tz : TzEnv) (apiKey : String)
    (http : String → HttpResponse) (ip : String)
    (expected_country_code : Option String) : Except PyErr JVal := do
  let ip_info ← fetch_ip_info apiKey http ip
  let slim ← slim_ip_info tz ip_info
  let loc ← pyIndex slim "location"
  let ip_country ← pyGet loc "country_code"
  let same_country ← same_country_val ip_country expected_country_code
  pure (.obj [
    ("same_country", same_country),
    ("ip_country_code", ip_country),
    ("expected_country_code", optStrToJVal expected_country_code),
    ("ip_info", slim)])

/-- Observable outcome of one process invocation: either `main` returned a
code (`raise SystemExit(main())`), or an exception escaped `main` and the
interpreter exited with code 1.  `stdout` is the list of JSON documents
printed to standard output, `stderr` the lines printed to standard error,
`fetchCalls` the number of outbound HTTP requests performed. -/
inductive MainOutcome where
  | exited : Nat → List JVal → List String → Nat → MainOutcome
  | raised : PyErr → List JVal → List String → Nat → MainOutcome

def MainOutcome.exitCode : MainOutcome → Nat
  | .exited c _ _ _ => c
  | .raised _ _ _ _ => 1

def MainOutcome.stdout : MainOutcome → List JVal
  | .exited _ out _ _ => out
  | .raised _ out _ _ => out

def MainOutcome.stderr : MainOutcome → List String
  | .exited _ _ err _ => err
  | .raised _ _ err _ => err

def MainOutcome.fetchCalls : MainOutcome → Nat
  | .exited _ _ _ n => n
  | .raised _ _ _ n => n

def usage_line : String := "Usage: python ip_check.py <ip> [expected_country_code]"

def pyReprStr (s : String) : String := "'" ++ s ++ "'"

def reprOptStr : Option String → String
  | none => "None"
  | some s => pyReprStr s

/-- The diagnostic line `main` prints to standard error before fetching. -/
def diag_line (ip : String) (expected : Option String) : String :=
  "[ip_check] ip=" ++ pyReprStr ip ++ ", expected=" ++ reprOptStr expected

/-- `main()` plus the `raise SystemExit(main())` wrapper, lines 109–128.
`argv` is the full `sys.argv` (script name first).  With fewer than two
entries: usage on standard error, return 1, no fetch.  Otherwise one fetch
happens inside `check_ip_country`; on success the result is printed to
standard output as one JSON document and `main` returns 0; an exception
propagates. -/
def run_main (tz : TzEnv) (apiKey : String) (http : String → HttpResponse)
    (argv : List String) : MainOutcome :=
  if argv.length < 2 then
    .exited 1 [] [usage_line] 0
  else
    let ip := (argv.get? 1).getD ""
    let expected := argv.get? 2
    match check_ip_country tz apiKey http ip expected with
    | .ok result => .exited 0 [result] [diag_line ip expected] 1
    | .error e => .raised e [] [diag_line ip expected] 1



/-! ## Helper lemmas -/

theorem orEmptyObj_obj (fs : List (String × JVal)) :
    orEmptyObj (JVal.obj fs) = JVal.obj fs := by
  cases fs <;> simp [orEmptyObj, JVal.truthy]

theorem orEmptyObj_ne_null (v : JVal) : orEmptyObj v ≠ JVal.null := by
  intro h
  rw [orEmptyObj] at h
  split at h
  · rename_i ht
    subst h
    simp [JVal.truthy] at ht
  · exact JVal.noConfusion h

/-- The `security` object `slim_ip_info` builds from the normalized
security association list `s`. -/
def secOf (s : List (String × JVal)) : JVal :=
  JVal.obj [
    ("vpn", (jlookup s "vpn").getD .null),
    ("proxy", (jlookup s "proxy").getD .null),
    ("tor", (jlookup s "tor").getD .null),
    ("relay", (jlookup s "relay").getD .null)]

/-- The `location` object `slim_ip_info` builds from the normalized
location association list `l`. -/
def locOf (env : TzEnv) (l : List (String × JVal)) : JVal :=
  JVal.obj [
    ("city", (jlookup l "city").getD .null),
    ("region", (jlookup l "region").getD .null),
    ("country", (jlookup l "country").getD .null),
    ("country_code", (jlookup l "country_code").getD .null),
    ("time_zone", (jlookup l "time_zone").getD .null),
    ("utc_offset_minutes", optIntToJVal (compute_utc_offset_minutes env
      ((jlookup l "time_zone").getD .null)))]

/-- The value `slim_ip_info` returns once the two normalized groups are the
association lists `s` and `l`. -/
def slimOf (env : TzEnv) (ipv : JVal) (s l : List (String × JVal)) : JVal :=
  JVal.obj [("ip", ipv), ("security", secOf s), ("location", locOf env l)]

theorem slim_ip_info_obj (env : TzEnv) (ipv net : JVal)
    (s l : List (String × JVal)) :
    slim_ip_info env ⟨ipv, JVal.obj s, JVal.obj l, net⟩ =
      Except.ok (slimOf env ipv s l) := by
  simp [slim_ip_info, slimOf, secOf, locOf, orEmptyObj_obj, pyGet, pyGetD,
    Bind.bind, Except.bind, Pure.pure, Except.pure]

theorem slim_ok_shape (env : TzEnv) (info : IpInfo) (r : JVal)
    (h : slim_ip_info env info = Except.ok r) :
    ∃ s l, orEmptyObj info.security = JVal.obj s ∧
      orEmptyObj info.location = JVal.obj l ∧ r = slimOf env info.ip s l := by
  cases hs : orEmptyObj info.security <;>
    cases hl : orEmptyObj info.location <;>
      simp [slim_ip_info, pyGet, pyGetD, hs, hl, Bind.bind, Except.bind,
        Pure.pure, Except.pure] at h <;>
      exact ⟨_, _, rfl, rfl, by simp [slimOf, secOf, locOf, h]⟩


theorem pyIndex_slimOf_location (env : TzEnv) (ipv : JVal)
    (s l : List (String × JVal)) :
    pyIndex (slimOf env ipv s l) "location" = Except.ok (locOf env l) := rfl

theorem pyGet_locOf_country_code (env : TzEnv) (l : List (String × JVal)) :
    pyGet (locOf env l) "country_code" =
      Except.ok ((jlookup l "country_code").getD JVal.null) := rfl

theorem same_country_val_null (e : Option String) :
    same_country_val JVal.null e = Except.ok JVal.null := by
  cases e <;> rfl

theorem same_country_val_none (v : JVal) :
    same_country_val v none = Except.ok JVal.null := by
  cases v <;> rfl

theorem same_country_val_str (c e : String) :
    same_country_val (JVal.str c) (some e) =
      Except.ok (JVal.bool (pyStrUpper c == pyStrUpper e)) := rfl

theorem same_country_val_other (v : JVal) (e : String)
    (hnull : v ≠ JVal.null) (hstr : ∀ c, v ≠ JVal.str c) :
    same_country_val v (some e) = Except.error PyErr.attributeError := by
  cases v with
  | null => exact absurd rfl hnull
  | str c => exact absurd rfl (hstr c)
  | _ => rfl

theorem check_ok_shape (tz : TzEnv) (apiKey ip : String)
    (http : String → HttpResponse) (expected : Option String) (r : JVal)
    (h : check_ip_country tz apiKey http ip expected = Except.ok r) :
    ∃ info s l sc,
      fetch_ip_info apiKey http ip = Except.ok info ∧
      slim_ip_info tz info = Except.ok (slimOf tz info.ip s l) ∧
      same_country_val ((jlookup l "country_code").getD JVal.null) expected =
        Except.ok sc ∧
      r = JVal.obj [
        ("same_country", sc),
        ("ip_country_code", (jlookup l "country_code").getD JVal.null),
        ("expected_country_code", optStrToJVal expected),
        ("ip_info", slimOf tz info.ip s l)] := by
  cases hf : fetch_ip_info apiKey http ip with
  | error e =>
    simp [check_ip_country, hf, Bind.bind, Except.bind] at h
  | ok info =>
    cases hs : slim_ip_info tz info with
    | error e =>
      simp [check_ip_country, hf, hs, Bind.bind, Except.bind] at h
    | ok sr =>
      obtain ⟨s, l, hso, hlo, rfl⟩ := slim_ok_shape tz info sr hs
      cases hc : same_country_val ((jlookup l "country_code").getD JVal.null)
          expected with
      | error e =>
        simp [check_ip_country, hf, hs, hc, pyIndex_slimOf_location,
          pyGet_locOf_country_code, Bind.bind, Except.bind] at h
      | ok sc =>
        refine ⟨info, s, l, sc, rfl, hs, hc, ?_⟩
        simp [check_ip_country, hf, hs, hc, pyIndex_slimOf_location,
          pyGet_locOf_country_code, Bind.bind, Except.bind,
          Pure.pure, Except.pure] at h
        exact h.symm


/-! ## The claims -/

/-- C2: `compute_utc_offset_minutes` never propagates an error to its
caller: it is a total function into `Option Int` (every failure mode of the
source — `ZoneInfo` raising on an unknown zone or missing database, a
non-string argument, a `None` offset — is the `none` branch of the model),
a `null` or empty `time_zone` gives `none`, and so does a runtime without
`zoneinfo` support or a zone name the environment fails to resolve. -/
theorem C2_offset_never_raises (env : TzEnv) (tz : JVal) :
    ((tz = JVal.null ∨ tz = JVal.str "") →
      compute_utc_offset_minutes env tz = none) ∧
    (env.zoneInfoAvailable = false →
      compute_utc_offset_minutes env tz = none) ∧
    (∀ s, tz = JVal.str s → env.resolve s = none →
      compute_utc_offset_minutes env tz = none) := by
  refine ⟨?_, ?_, ?_⟩
  · rintro (rfl | rfl) <;> rfl
  · intro h
    simp [compute_utc_offset_minutes, h]
  · rintro s rfl hres
    simp [compute_utc_offset_minutes, hres]

/-- C3: for every resolvable zone name (with `zoneinfo` available and the
environment reporting a current total offset of `secs` seconds),
`compute_utc_offset_minutes` returns the floor division of the offset
seconds by 60. -/
theorem C3_offset_floor_minutes (env : TzEnv) (s : String) (secs : Int)
    (hz : env.zoneInfoAvailable = true) (hne : s ≠ "")
    (hres : env.resolve s = some secs) :
    compute_utc_offset_minutes env (JVal.str s) = some (Int.fdiv secs 60) := by
  simp [compute_utc_offset_minutes, JVal.truthy, hz, hne, hres]

/-- Witness for C3: a zone currently at UTC+3:00 (10800 s) yields 180
minutes and one at UTC−5:00 (−18000 s) yields −300 minutes. -/
theorem C3_offset_floor_minutes_witness :
    compute_utc_offset_minutes
        ⟨true, fun z => if z = "Europe/Istanbul" then some 10800
                        else if z = "America/New_York" then some (-18000)
                        else none⟩
      (JVal.str "Europe/Istanbul") = some 180 ∧
    compute_utc_offset_minutes
        ⟨true, fun z => if z = "Europe/Istanbul" then some 10800
                        else if z = "America/New_York" then some (-18000)
                        else none⟩
      (JVal.str "America/New_York") = some (-300) :=
  ⟨C3_offset_floor_minutes _ "Europe/Istanbul" 10800 rfl (by decide) rfl,
   (C3_offset_floor_minutes _ "America/New_York" (-18000) rfl (by decide)
     rfl).trans (by decide)⟩


/-- C4: whatever the upstream groups contained, a successful
`slim_ip_info` result holds exactly the whitelisted keys — `ip`, the four
security flags and the six location fields — and in particular no
`network`, `latitude`, `longitude` or `continent` key anywhere. -/
theorem C4_slim_whitelist (env : TzEnv) (info : IpInfo) (r : JVal)
    (h : slim_ip_info env info = Except.ok r) :
    r.keys = ["ip", "security", "location"] ∧
    (r.item "security").keys = ["vpn", "proxy", "tor", "relay"] ∧
    (r.item "location").keys =
      ["city", "region", "country", "country_code", "time_zone",
       "utc_offset_minutes"] ∧
    r.hasKey "network" = false ∧
    r.hasKey "latitude" = false ∧
    r.hasKey "longitude" = false ∧
    r.hasKey "continent" = false ∧
    (r.item "location").hasKey "latitude" = false ∧
    (r.item "location").hasKey "longitude" = false ∧
    (r.item "location").hasKey "continent" = false ∧
    (r.item "security").hasKey "network" = false := by
  obtain ⟨s, l, -, -, rfl⟩ := slim_ok_shape env info r h
  exact ⟨rfl, rfl, rfl, rfl, rfl, rfl, rfl, rfl, rfl, rfl, rfl⟩

/-- A raw lookup result whose upstream groups carried coordinates, a
continent and a network block, for exercising C4. -/
def infoW4 : IpInfo :=
  ⟨.str "1.2.3.4",
   .obj [("vpn", .bool true)],
   .obj [("latitude", .num 48), ("longitude", .num 2),
         ("continent", .str "Europe"), ("country_code", .str "FR")],
   .obj [("network", .str "1.2.3.0/24"), ("autonomous_system_number", .num 64500)]⟩

/-- The slim result of `infoW4` under an environment that resolves no zone. -/
def slimW4 : JVal :=
  .obj [
    ("ip", .str "1.2.3.4"),
    ("security", .obj [("vpn", .bool true), ("proxy", .null),
                       ("tor", .null), ("relay", .null)]),
    ("location", .obj [("city", .null), ("region", .null), ("country", .null),
                       ("country_code", .str "FR"), ("time_zone", .null),
                       ("utc_offset_minutes", .null)])]

/-- Witness for C4 at `infoW4`: the upstream latitude, longitude, continent
and network data are all dropped. -/
theorem C4_slim_whitelist_witness :
    slimW4.keys = ["ip", "security", "location"] ∧
    (slimW4.item "security").keys = ["vpn", "proxy", "tor", "relay"] ∧
    (slimW4.item "location").keys =
      ["city", "region", "country", "country_code", "time_zone",
       "utc_offset_minutes"] ∧
    slimW4.hasKey "network" = false ∧
    slimW4.hasKey "latitude" = false ∧
    slimW4.hasKey "longitude" = false ∧
    slimW4.hasKey "continent" = false ∧
    (slimW4.item "location").hasKey "latitude" = false ∧
    (slimW4.item "location").hasKey "longitude" = false ∧
    (slimW4.item "location").hasKey "continent" = false ∧
    (slimW4.item "security").hasKey "network" = false :=
  C4_slim_whitelist ⟨true, fun _ => none⟩ infoW4 slimW4 (by rfl)

/-- C5: `slim_ip_info` is total on every raw result whose groups are
mappings: it succeeds, every whitelisted field that is absent from its
upstream group comes out `null`, and entirely empty groups give a slim
result whose fields are all `null`. -/
theorem C5_slim_total (env : TzEnv) (ipv net : JVal)
    (s l : List (String × JVal)) :
    ∃ r, slim_ip_info env ⟨ipv, JVal.obj s, JVal.obj l, net⟩ = Except.ok r ∧
      (jlookup s "vpn" = none → (r.item "security").item "vpn" = JVal.null) ∧
      (jlookup s "proxy" = none → (r.item "security").item "proxy" = JVal.null) ∧
      (jlookup s "tor" = none → (r.item "security").item "tor" = JVal.null) ∧
      (jlookup s "relay" = none → (r.item "security").item "relay" = JVal.null) ∧
      (jlookup l "city" = none → (r.item "location").item "city" = JVal.null) ∧
      (jlookup l "region" = none → (r.item "location").item "region" = JVal.null) ∧
      (jlookup l "country" = none → (r.item "location").item "country" = JVal.null) ∧
      (jlookup l "country_code" = none →
        (r.item "location").item "country_code" = JVal.null) ∧
      (jlookup l "time_zone" = none →
        (r.item "location").item "time_zone" = JVal.null) ∧
      (jlookup l "time_zone" = none →
        (r.item "location").item "utc_offset_minutes" = JVal.null) ∧
      (s = [] → l = [] → r = JVal.obj [
        ("ip", ipv),
        ("security", JVal.obj [("vpn", .null), ("proxy", .null),
                               ("tor", .null), ("relay", .null)]),
        ("location", JVal.obj [("city", .null), ("region", .null),
                               ("country", .null), ("country_code", .null),
                               ("time_zone", .null),
                               ("utc_offset_minutes", .null)])]) := by
  refine ⟨slimOf env ipv s l, slim_ip_info_obj env ipv net s l,
    ?_, ?_, ?_, ?_, ?_, ?_, ?_, ?_, ?_, ?_, ?_⟩
  · intro h
    show (jlookup s "vpn").getD JVal.null = JVal.null
    rw [h]; rfl
  · intro h
    show (jlookup s "proxy").getD JVal.null = JVal.null
    rw [h]; rfl
  · intro h
    show (jlookup s "tor").getD JVal.null = JVal.null
    rw [h]; rfl
  · intro h
    show (jlookup s "relay").getD JVal.null = JVal.null
    rw [h]; rfl
  · intro h
    show (jlookup l "city").getD JVal.null = JVal.null
    rw [h]; rfl
  · intro h
    show (jlookup l "region").getD JVal.null = JVal.null
    rw [h]; rfl
  · intro h
    show (jlookup l "country").getD JVal.null = JVal.null
    rw [h]; rfl
  · intro h
    show (jlookup l "country_code").getD JVal.null = JVal.null
    rw [h]; rfl
  · intro h
    show (jlookup l "time_zone").getD JVal.null = JVal.null
    rw [h]; rfl
  · intro h
    show optIntToJVal (compute_utc_offset_minutes env
      ((jlookup l "time_zone").getD JVal.null)) = JVal.null
    rw [h]; rfl
  · rintro rfl rfl
    rfl


theorem check_ip_country_eq (tz : TzEnv) (apiKey ip : String)
    (http : String → HttpResponse) (expected : Option String) (info : IpInfo)
    (s l : List (String × JVal))
    (hf : fetch_ip_info apiKey http ip = Except.ok info)
    (hs : slim_ip_info tz info = Except.ok (slimOf tz info.ip s l)) :
    check_ip_country tz apiKey http ip expected =
      (same_country_val ((jlookup l "country_code").getD JVal.null)
          expected).bind
        (fun sc => Except.ok (JVal.obj [
          ("same_country", sc),
          ("ip_country_code", (jlookup l "country_code").getD JVal.null),
          ("expected_country_code", optStrToJVal expected),
          ("ip_info", slimOf tz info.ip s l)])) := by
  cases hc : same_country_val ((jlookup l "country_code").getD JVal.null)
      expected <;>
    simp [check_ip_country, hf, hs, hc, pyIndex_slimOf_location,
      pyGet_locOf_country_code, Bind.bind, Except.bind, Pure.pure,
      Except.pure, Except.bind]

/-- C1: on every successful lookup, when the resolved country code is a
non-null string and an expected code was supplied, `same_country` is the
case-insensitive equality of the two (uppercase both, then compare); when
the resolved code is `null` or no expected code was supplied,
`same_country` is `null` — never `false`. -/
theorem C1_tristate_comparison (tz : TzEnv) (apiKey ip : String)
    (http : String → HttpResponse) (expected : Option String) (r : JVal)
    (h : check_ip_country tz apiKey http ip expected = Except.ok r) :
    (∀ c e, r.item "ip_country_code" = JVal.str c → expected = some e →
      r.item "same_country" = JVal.bool (pyStrUpper c == pyStrUpper e)) ∧
    (r.item "ip_country_code" = JVal.null →
      r.item "same_country" = JVal.null) ∧
    (expected = none → r.item "same_country" = JVal.null) := by
  obtain ⟨info, s, l, sc, hf, hs, hc, rfl⟩ :=
    check_ok_shape tz apiKey ip http expected r h
  refine ⟨?_, ?_, ?_⟩
  · intro c e hic he
    have hic' : (jlookup l "country_code").getD JVal.null = JVal.str c := hic
    rw [hic', he, same_country_val_str] at hc
    show sc = JVal.bool (pyStrUpper c == pyStrUpper e)
    exact (Except.ok.inj hc).symm
  · intro hic
    have hic' : (jlookup l "country_code").getD JVal.null = JVal.null := hic
    rw [hic', same_country_val_null] at hc
    show sc = JVal.null
    exact (Except.ok.inj hc).symm
  · intro he
    rw [he, same_country_val_none] at hc
    show sc = JVal.null
    exact (Except.ok.inj hc).symm

/-- A lookup response whose resolved country code is the lower-case `"tr"`,
for exercising C1. -/
def httpW1 : String → HttpResponse := fun _ =>
  ⟨200, .obj [("ip", .str "9.9.9.9"),
              ("location", .obj [("country_code", .str "tr")])]⟩

/-- The comparison result for `httpW1` with expected code `"TR"`. -/
def resultW1 : JVal :=
  .obj [
    ("same_country", .bool true),
    ("ip_country_code", .str "tr"),
    ("expected_country_code", .str "TR"),
    ("ip_info", .obj [
      ("ip", .str "9.9.9.9"),
      ("security", .obj [("vpn", .null), ("proxy", .null),
                         ("tor", .null), ("relay", .null)]),
      ("location", .obj [("city", .null), ("region", .null),
                         ("country", .null), ("country_code", .str "tr"),
                         ("time_zone", .null),
                         ("utc_offset_minutes", .null)])])]

/-- Witness for C1: `"tr"` against expected `"TR"` compares equal after
uppercasing. -/
theorem C1_tristate_comparison_witness :
    resultW1.item "same_country" = JVal.bool true :=
  (C1_tristate_comparison ⟨true, fun _ => none⟩ "k" "9.9.9.9" httpW1
      (some "TR") resultW1 (by rfl)).1 "tr" "TR" (by rfl) rfl


/-- The stubbed upstream response of the spec's worked example. -/
def bodyW8 : JVal :=
  .obj [("ip", .str "8.8.8.8"),
        ("location", .obj [("country_code", .str "US"),
                           ("time_zone", .str "America/Los_Angeles")]),
        ("security", .obj [("vpn", .bool false)])]

/-- A fetcher stub always answering 200 with `bodyW8`. -/
def httpW8 : String → HttpResponse := fun _ => ⟨200, bodyW8⟩

/-- A timezone environment in which `America/Los_Angeles` is currently at
UTC−7:00 (−25200 seconds). -/
def envW8 : TzEnv :=
  ⟨true, fun z => if z = "America/Los_Angeles" then some (-25200) else none⟩

/-- C8: on the spec's worked example — IP `8.8.8.8`, expected code `US`,
stubbed response `bodyW8` — the pipeline succeeds with `same_country`
true, `ip_country_code` `"US"`, and the `proxy` key present in
`ip_info.security` with value `null` (emitted, not omitted). -/
theorem C8_worked_example :
    ∃ r, check_ip_country envW8 "key" httpW8 "8.8.8.8" (some "US") =
        Except.ok r ∧
      r.item "same_country" = JVal.bool true ∧
      r.item "ip_country_code" = JVal.str "US" ∧
      ((r.item "ip_info").item "security").hasKey "proxy" = true ∧
      ((r.item "ip_info").item "security").item "proxy" = JVal.null :=
  ⟨.obj [
    ("same_country", .bool true),
    ("ip_country_code", .str "US"),
    ("expected_country_code", .str "US"),
    ("ip_info", .obj [
      ("ip", .str "8.8.8.8"),
      ("security", .obj [("vpn", .bool false), ("proxy", .null),
                         ("tor", .null), ("relay", .null)]),
      ("location", .obj [("city", .null), ("region", .null),
                         ("country", .null), ("country_code", .str "US"),
                         ("time_zone", .str "America/Los_Angeles"),
                         ("utc_offset_minutes", .num (-420))])])],
   by rfl, rfl, rfl, rfl, rfl⟩

/-- C9: the comparison step of `check_ip_country` is total exactly when the
resolved `country_code` is a string or null.  With a non-null expected code
supplied: a string or null resolved code yields a comparison result, while
a non-null non-string resolved code (a number, say) makes
`ip_country.upper()` raise an `AttributeError` instead of returning a
result. -/
theorem C9_nonstring_country_code (tz : TzEnv) (apiKey ip e : String)
    (http : String → HttpResponse) (info : IpInfo) (sr : JVal) (v : JVal)
    (hf : fetch_ip_info apiKey http ip = Except.ok info)
    (hs : slim_ip_info tz info = Except.ok sr)
    (hv : (sr.item "location").item "country_code" = v) :
    ((v = JVal.null ∨ ∃ c, v = JVal.str c) →
      ∃ r, check_ip_country tz apiKey http ip (some e) = Except.ok r) ∧
    ((v ≠ JVal.null ∧ ∀ c, v ≠ JVal.str c) →
      check_ip_country tz apiKey http ip (some e) =
        Except.error PyErr.attributeError) := by
  obtain ⟨s, l, hso, hlo, rfl⟩ := slim_ok_shape tz info sr hs
  have hv' : (jlookup l "country_code").getD JVal.null = v := hv
  have heq := check_ip_country_eq tz apiKey ip http (some e) info s l hf hs
  rw [hv'] at heq
  constructor
  · rintro (rfl | ⟨c, rfl⟩)
    · rw [heq, same_country_val_null]
      exact ⟨_, rfl⟩
    · rw [heq, same_country_val_str]
      exact ⟨_, rfl⟩
  · rintro ⟨hnull, hstr⟩
    rw [heq, same_country_val_other v e hnull hstr]
    rfl

/-- A response whose `country_code` is the number 5. -/
def httpW9 : String → HttpResponse := fun _ =>
  ⟨200, .obj [("location", .obj [("country_code", .num 5)])]⟩

/-- The slim result of the `httpW9` response. -/
def slimW9 : JVal :=
  .obj [
    ("ip", .null),
    ("security", .obj [("vpn", .null), ("proxy", .null),
                       ("tor", .null), ("relay", .null)]),
    ("location", .obj [("city", .null), ("region", .null),
                       ("country", .null), ("country_code", .num 5),
                       ("time_zone", .null),
                       ("utc_offset_minutes", .null)])]

/-- Witness for C9: a numeric `country_code` with a supplied expected code
makes the whole pipeline raise instead of producing a result. -/
theorem C9_nonstring_country_code_witness :
    check_ip_country ⟨true, fun _ => none⟩ "k" httpW9 "1.2.3.4" (some "US") =
      Except.error PyErr.attributeError :=
  (C9_nonstring_country_code ⟨true, fun _ => none⟩ "k" "1.2.3.4" "US" httpW9
      ⟨.null, .obj [], .obj [("country_code", .num 5)], .obj []⟩
      slimW9 (.num 5) (by rfl) (by rfl) rfl).2
    ⟨by simp, fun c => by simp⟩


/-- C6: an error HTTP status (the 400–599 range `raise_for_status` raises
on, the only non-success statuses the HTTP client surfaces) makes
`fetch_ip_info` fail with the HTTP error carrying the status and body;
the failure propagates uncaught through `check_ip_country` and `main`, so
the process exits with a non-zero code having printed no JSON document on
standard output. -/
theorem C6_http_error_propagates (tz : TzEnv) (apiKey ip prog : String)
    (rest : List String) (http : String → HttpResponse) (st : Nat)
    (body : JVal) (hresp : http (build_url apiKey ip) = ⟨st, body⟩)
    (h4 : 400 ≤ st) (h6 : st < 600) :
    fetch_ip_info apiKey http ip =
      Except.error (PyErr.httpError st body) ∧
    (∀ expected, check_ip_country tz apiKey http ip expected =
      Except.error (PyErr.httpError st body)) ∧
    (run_main tz apiKey http (prog :: ip :: rest)).stdout = [] ∧
    (run_main tz apiKey http (prog :: ip :: rest)).exitCode ≠ 0 := by
  have hfetch : fetch_ip_info apiKey http ip =
      Except.error (PyErr.httpError st body) := by
    simp [fetch_ip_info, hresp, raise_for_status, h4, h6,
      Bind.bind, Except.bind]
  have hcheck : ∀ expected, check_ip_country tz apiKey http ip expected =
      Except.error (PyErr.httpError st body) := by
    intro expected
    simp [check_ip_country, hfetch, Bind.bind, Except.bind]
  have hrun : run_main tz apiKey http (prog :: ip :: rest) =
      MainOutcome.raised (PyErr.httpError st body) []
        [diag_line ip (rest.get? 0)] 1 := by
    simp [run_main, hcheck]
  exact ⟨hfetch, hcheck, by rw [hrun]; rfl, by rw [hrun]; exact Nat.one_ne_zero⟩

/-- Witness for C6: a 403 response with a plain string body kills the run
with no JSON printed. -/
theorem C6_http_error_propagates_witness :
    fetch_ip_info "k" (fun _ => ⟨403, JVal.str "denied"⟩) "8.8.8.8" =
      Except.error (PyErr.httpError 403 (JVal.str "denied")) ∧
    (run_main ⟨true, fun _ => none⟩ "k" (fun _ => ⟨403, JVal.str "denied"⟩)
      ["ip_check.py", "8.8.8.8"]).stdout = [] :=
  have h := C6_http_error_propagates ⟨true, fun _ => none⟩ "k" "8.8.8.8"
    "ip_check.py" [] (fun _ => ⟨403, JVal.str "denied"⟩) 403
    (JVal.str "denied") rfl (by decide) (by decide)
  ⟨h.1, h.2.2.1⟩

/-- C7: with fewer than two words on the command line, `main` prints the
usage line to standard error and returns exit code 1 with no fetch
performed and nothing on standard output; with the IP argument present and
a successful pipeline, it prints the comparison result as the only JSON
document on standard output and returns exit code 0 (after one fetch). -/
theorem C7_cli_usage_and_success (tz : TzEnv) (apiKey : String)
    (http : String → HttpResponse) :
    (∀ argv, argv.length < 2 →
      run_main tz apiKey http argv =
        MainOutcome.exited 1 [] [usage_line] 0) ∧
    (∀ prog ip rest r,
      check_ip_country tz apiKey http ip rest[0]? = Except.ok r →
      run_main tz apiKey http (prog :: ip :: rest) =
        MainOutcome.exited 0 [r] [diag_line ip rest[0]?] 1) := by
  constructor
  · intro argv h
    simp [run_main, h]
  · intro prog ip rest r hok
    simp only [run_main, List.length_cons]
    rw [if_neg (by omega)]
    simp [hok]


theorem parse_ip_info_obj (fs : List (String × JVal)) :
    parse_ip_info (JVal.obj fs) = Except.ok
      ⟨(jlookup fs "ip").getD JVal.null,
       orEmptyObj ((jlookup fs "security").getD (JVal.obj [])),
       orEmptyObj ((jlookup fs "location").getD (JVal.obj [])),
       orEmptyObj ((jlookup fs "network").getD (JVal.obj []))⟩ := rfl

/-- C10: a `security`, `location` or `network` group present in the
upstream JSON with a falsy value (`null` among them) is normalized by the
fetch step to an empty mapping, exactly as when the group is absent; the
parsed record's group fields are never `null`; and `slim_ip_info`
independently treats a `null` group like an empty mapping. -/
theorem C10_falsy_group_normalization (fs : List (String × JVal)) (v : JVal)
    (info : IpInfo) (hp : parse_ip_info (JVal.obj fs) = Except.ok info)
    (hv : v.truthy = false) :
    (jlookup fs "security" = some v → info.security = JVal.obj []) ∧
    (jlookup fs "location" = some v → info.location = JVal.obj []) ∧
    (jlookup fs "network" = some v → info.network = JVal.obj []) ∧
    (jlookup fs "security" = none → info.security = JVal.obj []) ∧
    (jlookup fs "location" = none → info.location = JVal.obj []) ∧
    (jlookup fs "network" = none → info.network = JVal.obj []) ∧
    info.security ≠ JVal.null ∧ info.location ≠ JVal.null ∧
    info.network ≠ JVal.null ∧
    (∀ env ipv sec net,
      slim_ip_info env ⟨ipv, sec, JVal.null, net⟩ =
        slim_ip_info env ⟨ipv, sec, JVal.obj [], net⟩) ∧
    (∀ env ipv loc net,
      slim_ip_info env ⟨ipv, JVal.null, loc, net⟩ =
        slim_ip_info env ⟨ipv, JVal.obj [], loc, net⟩) := by
  rw [parse_ip_info_obj] at hp
  have hinfo := (Except.ok.inj hp).symm
  subst hinfo
  refine ⟨?_, ?_, ?_, ?_, ?_, ?_, ?_, ?_, ?_, ?_, ?_⟩
  · intro h
    show orEmptyObj ((jlookup fs "security").getD (JVal.obj [])) = JVal.obj []
    rw [h]
    simp [orEmptyObj, hv]
  · intro h
    show orEmptyObj ((jlookup fs "location").getD (JVal.obj [])) = JVal.obj []
    rw [h]
    simp [orEmptyObj, hv]
  · intro h
    show orEmptyObj ((jlookup fs "network").getD (JVal.obj [])) = JVal.obj []
    rw [h]
    simp [orEmptyObj, hv]
  · intro h
    show orEmptyObj ((jlookup fs "security").getD (JVal.obj [])) = JVal.obj []
    rw [h]
    rfl
  · intro h
    show orEmptyObj ((jlookup fs "location").getD (JVal.obj [])) = JVal.obj []
    rw [h]
    rfl
  · intro h
    show orEmptyObj ((jlookup fs "network").getD (JVal.obj [])) = JVal.obj []
    rw [h]
    rfl
  · exact orEmptyObj_ne_null _
  · exact orEmptyObj_ne_null _
  · exact orEmptyObj_ne_null _
  · intro env ipv sec net
    rfl
  · intro env ipv loc net
    rfl

/-- An upstream body whose `security` group is present but `null` and
whose other groups are absent. -/
def fsW10 : List (String × JVal) := [("security", JVal.null)]

/-- Witness for C10: parsing `fsW10` gives empty security and location
mappings. -/
theorem C10_falsy_group_normalization_witness :
    orEmptyObj ((jlookup fsW10 "security").getD (JVal.obj [])) =
      JVal.obj [] ∧
    orEmptyObj ((jlookup fsW10 "location").getD (JVal.obj [])) =
      JVal.obj [] :=
  have h := C10_falsy_group_normalization fsW10 JVal.null
    ⟨JVal.null, JVal.obj [], JVal.obj [], JVal.obj []⟩ (by rfl) rfl
  ⟨h.1 rfl, h.2.2.2.2.1 rfl⟩

end IpCheck
